import Mathlib

/-!
Verification of the error-classification module (`src/errors/index.ts`).

The module is dynamically typed: `createHeliusError` receives an arbitrary
caught JavaScript value. We embed the relevant fragment of JavaScript value
semantics shallowly:

* `JSVal` covers `null`, `undefined`, booleans, numbers (integral — the only
  numbers the module compares against), strings, and plain objects
  (association lists of string keys).
* Property access `a.b` throws a `TypeError` when the receiver is `null` or
  `undefined`; on any other primitive it yields `undefined`; method-bearing
  host objects beyond plain data objects are out of scope.
* Truthiness follows JavaScript: `null`, `undefined`, `false`, `0` and `""`
  are falsy, objects are always truthy.
* `String(v)` / `ToString` is modelled by `jsToString` (plain objects print
  as `"[object Object]"`).
* A numeric-keyed record literal stores its keys as decimal strings, and a
  bracket lookup `rec[k]` converts `k` with `ToString`; consequently both the
  number `500` and the string `"500"` hit the `statusCodeMap` entry, while
  `true`, `null`, `undefined` and plain objects stringify to keys that can
  never match a three-digit entry. `statusMapLookup` realises exactly that.
* Fallible evaluation is `Except Unit`: `Except.error ()` marks a thrown
  `TypeError` (reading a property of `null`/`undefined`, or calling
  `.includes` on a non-string).
-/

inductive JSVal where
  | null
  | undef
  | bool (b : Bool)
  | num (n : Int)
  | str (s : String)
  | obj (fields : List (String × JSVal))
deriving Repr

/-- JavaScript truthiness for the modelled values. -/
def truthy : JSVal → Bool
  | JSVal.null => false
  | JSVal.undef => false
  | JSVal.bool b => b
  | JSVal.num n => decide (n ≠ 0)
  | JSVal.str s => decide (s ≠ "")
  | JSVal.obj _ => true

/-- Property access on a receiver that is known not to be null/undefined:
objects yield the first binding of the key (or undefined), every other
primitive yields undefined. -/
def getFieldT : JSVal → String → JSVal
  | JSVal.obj fields, k => (fields.lookup k).getD JSVal.undef
  | _, _ => JSVal.undef

/-- Optional chaining `v?.k`: undefined when the receiver is null/undefined. -/
def optChain (v : JSVal) (k : String) : JSVal :=
  match v with
  | JSVal.null => JSVal.undef
  | JSVal.undef => JSVal.undef
  | w => getFieldT w k

/-- JavaScript ToString on the modelled values. -/
def jsToString : JSVal → String
  | JSVal.null => "null"
  | JSVal.undef => "undefined"
  | JSVal.bool b => if b then "true" else "false"
  | JSVal.num n => toString n
  | JSVal.str s => s
  | JSVal.obj _ => "[object Object]"

/-- `String.prototype.includes`: substring occurrence. -/
def strIncludes (s sub : String) : Bool :=
  decide (sub.data <:+: s.data)

def isNullOrUndef : JSVal → Bool
  | JSVal.null => true
  | JSVal.undef => true
  | _ => false

def JSVal.isNum : JSVal → Bool
  | JSVal.num _ => true
  | _ => false

def JSVal.isStr : JSVal → Bool
  | JSVal.str _ => true
  | _ => false

/-- The `HeliusErrorCode` enum from the source, with its twelve members. -/
inductive HeliusErrorCode where
  | API_KEY_INVALID
  | API_RATE_LIMIT
  | API_REQUEST_FAILED
  | ASSET_NOT_FOUND
  | WEBHOOK_NOT_FOUND
  | WEBHOOK_ADDRESS_LIMIT
  | TRANSACTION_FAILED
  | TRANSACTION_SIMULATE_FAILED
  | INSUFFICIENT_FUNDS
  | INVALID_INPUT
  | NETWORK_ERROR
  | UNKNOWN_ERROR
deriving Repr, DecidableEq

/-- The observable fields of a constructed `HeliusError`.  `message` is the
string the `Error` super-constructor stores.  `statusCode` keeps the raw
value the constructor received (`undef` = the property is absent /
undefined); the TypeScript annotation says `number`, but the factory passes
`error.response.status`, an `any`. -/
structure HeliusError where
  code : HeliusErrorCode
  message : String
  statusCode : JSVal
  retryable : Bool
  operation : Option String
deriving Repr

/-- The options bag of the `HeliusError` constructor. `none` on
`retryable` / `operation` models the property being absent or undefined. -/
structure HeliusErrorOptions where
  statusCode : JSVal
  retryable : Option Bool
  operation : Option String
deriving Repr

/-- What `super(message)` stores in `this.message`: the empty string when the
argument is undefined, otherwise `ToString` of the argument. -/
def errMessageString (message : JSVal) : String :=
  match message with
  | JSVal.undef => ""
  | m => jsToString m

/-- The `HeliusError` constructor: `this.retryable = options.retryable || false`,
the other fields are copied. -/
def HeliusError.construct (code : HeliusErrorCode) (message : JSVal)
    (options : HeliusErrorOptions) : HeliusError :=
  ⟨code, errMessageString message, options.statusCode,
    options.retryable.getD false, options.operation⟩

def HeliusError.isRetryable (e : HeliusError) : Bool :=
  e.retryable

def HeliusError.getUserMessage (e : HeliusError) : String :=
  match e.code with
  | HeliusErrorCode.API_KEY_INVALID =>
      "Invalid API key. Please check your API key in the Helius dashboard."
  | HeliusErrorCode.API_RATE_LIMIT =>
      "Rate limit exceeded. Please wait before making more requests."
  | HeliusErrorCode.WEBHOOK_ADDRESS_LIMIT =>
      "Webhook address limit exceeded. Maximum 100,000 addresses per webhook."
  | HeliusErrorCode.INSUFFICIENT_FUNDS =>
      "Insufficient funds for this transaction."
  | _ => e.message

/-- `error.response` (valid once `error` is known not null/undefined). -/
def responseOf (error : JSVal) : JSVal :=
  getFieldT error "response"

/-- `error.response.status` (valid once `error.response` is truthy). -/
def statusOf (error : JSVal) : JSVal :=
  getFieldT (responseOf error) "status"

/-- `statusCodeMap[status]`, with JavaScript property-key semantics: the
numeric keys of the record are stored as the decimal strings "401", "429", "404",
"500", "502", "503", and the lookup key is converted with ToString.  A
number hits its own entry, a decimal string hits the same entry, and no
other modelled value can stringify to a three-digit key. -/
def statusMapLookup (status : JSVal) : Option HeliusErrorCode :=
  match status with
  | JSVal.num n =>
      if n = 401 then some HeliusErrorCode.API_KEY_INVALID
      else if n = 429 then some HeliusErrorCode.API_RATE_LIMIT
      else if n = 404 then some HeliusErrorCode.ASSET_NOT_FOUND
      else if n = 500 ∨ n = 502 ∨ n = 503 then some HeliusErrorCode.API_REQUEST_FAILED
      else none
  | JSVal.str s =>
      if s = "401" then some HeliusErrorCode.API_KEY_INVALID
      else if s = "429" then some HeliusErrorCode.API_RATE_LIMIT
      else if s = "404" then some HeliusErrorCode.ASSET_NOT_FOUND
      else if s = "500" ∨ s = "502" ∨ s = "503" then some HeliusErrorCode.API_REQUEST_FAILED
      else none
  | _ => none

/-- `[429, 500, 502, 503].includes(status)`: strict (SameValueZero)
membership, so only the numbers themselves qualify. -/
def retryableStatus (status : JSVal) : Bool :=
  match status with
  | JSVal.num n => decide (n = 429 ∨ n = 500 ∨ n = 502 ∨ n = 503)
  | _ => false

/-- `error.response.data?.error || error.message` of the transport branch. -/
def transportMessage (error : JSVal) : JSVal :=
  if truthy (optChain (getFieldT (responseOf error) "data") "error") then
    optChain (getFieldT (responseOf error) "data") "error"
  else getFieldT error "message"

/-- `error.message || String(error)` of the business branch. -/
def derivedMessage (error : JSVal) : JSVal :=
  if truthy (getFieldT error "message") then getFieldT error "message"
  else JSVal.str (jsToString error)

/-- The factory `createHeliusError(error, operation)`.  `Except.error ()`
marks a thrown `TypeError`: reading `error.response` off `null`/`undefined`,
or calling `.includes` on a non-string derived message. -/
def createHeliusError (error : JSVal) (operation : Option String) :
    Except Unit HeliusError :=
  if isNullOrUndef error then
    Except.error ()
  else if truthy (responseOf error) then
    Except.ok (HeliusError.construct
      ((statusMapLookup (statusOf error)).getD HeliusErrorCode.NETWORK_ERROR)
      (transportMessage error)
      ⟨statusOf error, some (retryableStatus (statusOf error)), operation⟩)
  else
    match derivedMessage error with
    | JSVal.str s =>
        if strIncludes s "100,000 addresses" || strIncludes s "address limit" then
          Except.ok (HeliusError.construct HeliusErrorCode.WEBHOOK_ADDRESS_LIMIT
            (JSVal.str s) ⟨JSVal.undef, none, operation⟩)
        else if strIncludes s "insufficient funds" then
          Except.ok (HeliusError.construct HeliusErrorCode.INSUFFICIENT_FUNDS
            (JSVal.str s) ⟨JSVal.undef, none, operation⟩)
        else if strIncludes s "simulation failed" then
          Except.ok (HeliusError.construct HeliusErrorCode.TRANSACTION_SIMULATE_FAILED
            (JSVal.str s) ⟨JSVal.undef, none, operation⟩)
        else
          Except.ok (HeliusError.construct HeliusErrorCode.UNKNOWN_ERROR
            (JSVal.str s) ⟨JSVal.undef, none, operation⟩)
    | _ => Except.error ()

/-- A value reaching the predicate helpers: either a raw JavaScript value or
an instance of the `HeliusError` class (runtime class identity is the tag of
this sum, matching the `instanceof` test). -/
inductive Caught where
  | raw (v : JSVal)
  | helius (e : HeliusError)
deriving Repr

/-- `isHeliusError = (error) => error instanceof HeliusError`. -/
def isHeliusError : Caught → Bool
  | Caught.helius _ => true
  | Caught.raw _ => false

/-- `isRetryableError = (error) => isHeliusError(error) && error.isRetryable()`;
the second conjunct is only evaluated (and only meaningful) on instances. -/
def isRetryableError (x : Caught) : Bool :=
  isHeliusError x &&
    (match x with
     | Caught.helius e => e.isRetryable
     | Caught.raw _ => false)

/-- Whether the factory returned normally. -/
def returnsOk (r : Except Unit HeliusError) : Bool :=
  match r with
  | Except.ok _ => true
  | Except.error _ => false

/-- The status-to-kind table as the spec states it (§4.2 step 1), written
over the integer status for the refinement comparison with the code. -/
def specStatusKind (n : Int) : HeliusErrorCode :=
  if n = 401 then HeliusErrorCode.API_KEY_INVALID
  else if n = 429 then HeliusErrorCode.API_RATE_LIMIT
  else if n = 404 then HeliusErrorCode.ASSET_NOT_FOUND
  else if n = 500 ∨ n = 502 ∨ n = 503 then HeliusErrorCode.API_REQUEST_FAILED
  else HeliusErrorCode.NETWORK_ERROR

/-- The retryability rule as the spec states it: status in {429, 500, 502, 503}. -/
def specRetryable (n : Int) : Bool :=
  decide (n = 429 ∨ n = 500 ∨ n = 502 ∨ n = 503)

example : createHeliusError (JSVal.obj [("response", JSVal.obj [("status", JSVal.num 401)])]) none
    = Except.ok ⟨HeliusErrorCode.API_KEY_INVALID, "", JSVal.num 401, false, none⟩ := rfl

example : createHeliusError (JSVal.obj [("message", JSVal.str "boom")]) none
    = Except.ok ⟨HeliusErrorCode.UNKNOWN_ERROR, "boom", JSVal.undef, false, none⟩ := rfl

example : createHeliusError JSVal.null none = Except.error () := rfl

/-- A truthy `error.response` forces `error` to be an object, hence neither
null nor undefined: on every non-object the field read yields undefined. -/
theorem truthy_response_not_nullundef (v : JSVal)
    (h : truthy (responseOf v) = true) : isNullOrUndef v = false := by
  cases v <;> simp_all [responseOf, getFieldT, truthy, isNullOrUndef]

theorem isNullOrUndef_eq_false (v : JSVal)
    (h1 : v ≠ JSVal.null) (h2 : v ≠ JSVal.undef) : isNullOrUndef v = false := by
  cases v <;> simp_all [isNullOrUndef]

/-- Unfolding of the factory on the transport branch. -/
theorem createHeliusError_transport (v : JSVal) (op : Option String)
    (h : truthy (responseOf v) = true) :
    createHeliusError v op = Except.ok (HeliusError.construct
      ((statusMapLookup (statusOf v)).getD HeliusErrorCode.NETWORK_ERROR)
      (transportMessage v)
      ⟨statusOf v, some (retryableStatus (statusOf v)), op⟩) := by
  simp only [createHeliusError]
  rw [truthy_response_not_nullundef v h, h]
  rfl

/-- Unfolding of the factory on the business branch, when the derived
message is a string. -/
theorem createHeliusError_business (v : JSVal) (op : Option String) (s : String)
    (h1 : v ≠ JSVal.null) (h2 : v ≠ JSVal.undef)
    (hresp : truthy (responseOf v) = false)
    (hm : derivedMessage v = JSVal.str s) :
    createHeliusError v op =
      (if strIncludes s "100,000 addresses" || strIncludes s "address limit" then
        Except.ok (HeliusError.construct HeliusErrorCode.WEBHOOK_ADDRESS_LIMIT
          (JSVal.str s) ⟨JSVal.undef, none, op⟩)
      else if strIncludes s "insufficient funds" then
        Except.ok (HeliusError.construct HeliusErrorCode.INSUFFICIENT_FUNDS
          (JSVal.str s) ⟨JSVal.undef, none, op⟩)
      else if strIncludes s "simulation failed" then
        Except.ok (HeliusError.construct HeliusErrorCode.TRANSACTION_SIMULATE_FAILED
          (JSVal.str s) ⟨JSVal.undef, none, op⟩)
      else
        Except.ok (HeliusError.construct HeliusErrorCode.UNKNOWN_ERROR
          (JSVal.str s) ⟨JSVal.undef, none, op⟩)) := by
  simp only [createHeliusError]
  rw [isNullOrUndef_eq_false v h1 h2, hresp, hm]
  rfl

/-- Every normal return of the business branch has an absent status code,
`retryable = false`, and the given operation. -/
theorem business_result_shape (v : JSVal) (op : Option String) (e : HeliusError)
    (hresp : truthy (responseOf v) = false)
    (h : createHeliusError v op = Except.ok e) :
    e.statusCode = JSVal.undef ∧ e.retryable = false ∧ e.operation = op := by
  unfold createHeliusError at h
  split at h
  · exact absurd h (by simp)
  · split at h
    · rename_i hc
      rw [hc] at hresp
      exact absurd hresp (by simp)
    · split at h
      · split_ifs at h <;> (injection h with h; subst h; exact ⟨rfl, rfl, rfl⟩)
      · exact absurd h (by simp)

/-- Bridge between the status lookup of the code at a numeric status and the
table as the spec writes it. -/
theorem statusMapLookup_num_getD (n : Int) :
    (statusMapLookup (JSVal.num n)).getD HeliusErrorCode.NETWORK_ERROR
      = specStatusKind n := by
  simp only [statusMapLookup, specStatusKind]
  split_ifs <;> rfl

theorem retryableStatus_num (n : Int) :
    retryableStatus (JSVal.num n) = specRetryable n := rfl

/-- C1 (amended): the factory returns a classified error on every input on
which its JavaScript evaluation is defined: the input is not null/undefined
(reading `.response` would throw), and when no truthy response descriptor is
present the derived message value is a string (otherwise `.includes` would
throw). -/
theorem createHeliusError_total_on_defined (v : JSVal) (op : Option String)
    (h1 : v ≠ JSVal.null) (h2 : v ≠ JSVal.undef)
    (h3 : truthy (responseOf v) = true ∨ (derivedMessage v).isStr = true) :
    returnsOk (createHeliusError v op) = true := by
  rcases h3 with h3 | h3
  · rw [createHeliusError_transport v op h3]; rfl
  · by_cases hr : truthy (responseOf v) = true
    · rw [createHeliusError_transport v op hr]; rfl
    · have hrf : truthy (responseOf v) = false := by simpa using hr
      rcases hd : derivedMessage v with _ | _ | b | n | s | fs
      · rw [hd] at h3; simp [JSVal.isStr] at h3
      · rw [hd] at h3; simp [JSVal.isStr] at h3
      · rw [hd] at h3; simp [JSVal.isStr] at h3
      · rw [hd] at h3; simp [JSVal.isStr] at h3
      · rw [createHeliusError_business v op s h1 h2 hrf hd]
        split_ifs <;> rfl
      · rw [hd] at h3; simp [JSVal.isStr] at h3

theorem createHeliusError_total_on_defined_witness :
    returnsOk (createHeliusError (JSVal.str "boom") none) = true :=
  createHeliusError_total_on_defined (JSVal.str "boom") none nofun nofun (Or.inr rfl)

/-- C1 counterexample: on `null` the factory itself throws (a `TypeError`
from reading `.response` off null) instead of returning a classified
error. -/
theorem createHeliusError_null_throws :
    createHeliusError JSVal.null none = Except.error () := rfl

/-- C2: with a truthy response descriptor carrying a numeric status, the
factory returns the kind given by the fixed status table, `retryable` true
exactly on 429/500/502/503, the status as `statusCode`, and the given
operation. -/
theorem createHeliusError_status_table (v : JSVal) (op : Option String) (n : Int)
    (hresp : truthy (responseOf v) = true) (hst : statusOf v = JSVal.num n) :
    createHeliusError v op = Except.ok
      ⟨specStatusKind n, errMessageString (transportMessage v), JSVal.num n,
        specRetryable n, op⟩ := by
  rw [createHeliusError_transport v op hresp, hst]
  simp only [HeliusError.construct, Option.getD_some, statusMapLookup_num_getD,
    retryableStatus_num]

theorem createHeliusError_status_table_witness :
    createHeliusError (JSVal.obj [("response", JSVal.obj [("status", JSVal.num 429)])]) none
      = Except.ok ⟨HeliusErrorCode.API_RATE_LIMIT, "", JSVal.num 429, true, none⟩ :=
  (createHeliusError_status_table
    (JSVal.obj [("response", JSVal.obj [("status", JSVal.num 429)])]) none 429
    rfl rfl).trans rfl

/-- C3: with no response descriptor, the substring tests run in the fixed
priority order and the first match wins; in particular a message containing
"address limit" is classified WEBHOOK_ADDRESS_LIMIT regardless of the later
patterns. -/
theorem createHeliusError_text_priority (v : JSVal) (op : Option String) (s : String)
    (h1 : v ≠ JSVal.null) (h2 : v ≠ JSVal.undef)
    (hresp : truthy (responseOf v) = false)
    (hm : derivedMessage v = JSVal.str s) :
    ((strIncludes s "100,000 addresses" = true ∨ strIncludes s "address limit" = true) →
      createHeliusError v op = Except.ok
        ⟨HeliusErrorCode.WEBHOOK_ADDRESS_LIMIT, s, JSVal.undef, false, op⟩)
    ∧ (strIncludes s "100,000 addresses" = false → strIncludes s "address limit" = false →
        strIncludes s "insufficient funds" = true →
      createHeliusError v op = Except.ok
        ⟨HeliusErrorCode.INSUFFICIENT_FUNDS, s, JSVal.undef, false, op⟩)
    ∧ (strIncludes s "100,000 addresses" = false → strIncludes s "address limit" = false →
        strIncludes s "insufficient funds" = false → strIncludes s "simulation failed" = true →
      createHeliusError v op = Except.ok
        ⟨HeliusErrorCode.TRANSACTION_SIMULATE_FAILED, s, JSVal.undef, false, op⟩) := by
  rw [createHeliusError_business v op s h1 h2 hresp hm]
  refine ⟨fun h => ?_, fun ha hb h => ?_, fun ha hb hc h => ?_⟩
  · rcases h with h | h <;> simp [h, HeliusError.construct, errMessageString, jsToString]
  · simp [ha, hb, h, HeliusError.construct, errMessageString, jsToString]
  · simp [ha, hb, hc, h, HeliusError.construct, errMessageString, jsToString]

theorem createHeliusError_text_priority_witness :
    createHeliusError
      (JSVal.obj [("message", JSVal.str "address limit hit with insufficient funds")]) none
      = Except.ok ⟨HeliusErrorCode.WEBHOOK_ADDRESS_LIMIT,
          "address limit hit with insufficient funds", JSVal.undef, false, none⟩ :=
  (createHeliusError_text_priority
    (JSVal.obj [("message", JSVal.str "address limit hit with insufficient funds")])
    none "address limit hit with insufficient funds"
    nofun nofun rfl rfl).1 (Or.inr (by decide))

/-- C4: whenever a truthy response descriptor is present the transport
branch returns immediately, and the kind is the status-table lookup of the
status value alone; the message text never influences it. -/
theorem createHeliusError_transport_priority (v : JSVal) (op : Option String)
    (hresp : truthy (responseOf v) = true) :
    createHeliusError v op = Except.ok
      ⟨(statusMapLookup (statusOf v)).getD HeliusErrorCode.NETWORK_ERROR,
       errMessageString (transportMessage v), statusOf v,
       retryableStatus (statusOf v), op⟩ :=
  (createHeliusError_transport v op hresp).trans rfl

theorem createHeliusError_transport_priority_witness :
    createHeliusError (JSVal.obj [("response", JSVal.obj [("status", JSVal.num 404)]),
        ("message", JSVal.str "insufficient funds")]) none
      = Except.ok ⟨HeliusErrorCode.ASSET_NOT_FOUND, "insufficient funds",
          JSVal.num 404, false, none⟩ :=
  (createHeliusError_transport_priority
    (JSVal.obj [("response", JSVal.obj [("status", JSVal.num 404)]),
      ("message", JSVal.str "insufficient funds")]) none rfl).trans rfl

/-- The strict membership test of the retryable whitelist succeeds only on
the four literal numbers. -/
theorem retryableStatus_eq_true (st : JSVal) (h : retryableStatus st = true) :
    st = JSVal.num 429 ∨ st = JSVal.num 500 ∨ st = JSVal.num 502 ∨ st = JSVal.num 503 := by
  cases st <;> simp_all [retryableStatus]

/-- C5: retryability is whitelisted.  A factory result is retryable only
when its stored status code is one of the numbers 429, 500, 502, 503; and
any directly constructed error is retryable only when the options explicitly
said `retryable: true`. -/
theorem retryable_whitelist :
    (∀ (v : JSVal) (op : Option String) (e : HeliusError),
        createHeliusError v op = Except.ok e → e.retryable = true →
        e.statusCode = JSVal.num 429 ∨ e.statusCode = JSVal.num 500 ∨
          e.statusCode = JSVal.num 502 ∨ e.statusCode = JSVal.num 503)
    ∧ (∀ (code : HeliusErrorCode) (message : JSVal) (options : HeliusErrorOptions),
        (HeliusError.construct code message options).retryable = true →
        options.retryable = some true) := by
  constructor
  · intro v op e h hr
    by_cases hresp : truthy (responseOf v) = true
    · rw [createHeliusError_transport v op hresp] at h
      injection h with h
      subst h
      have h4 := retryableStatus_eq_true (statusOf v)
        (by simpa [HeliusError.construct] using hr)
      rcases h4 with h4 | h4 | h4 | h4 <;> simp [HeliusError.construct, h4]
    · have hrf : truthy (responseOf v) = false := by simpa using hresp
      rw [(business_result_shape v op e hrf h).2.1] at hr
      exact absurd hr (by simp)
  · intro code message options h
    simp only [HeliusError.construct] at h
    rcases ho : options.retryable with _ | b
    · rw [ho] at h; simp at h
    · rw [ho] at h
      simp only [Option.getD_some] at h
      rw [h]

theorem retryable_whitelist_witness :
    (⟨HeliusErrorCode.API_RATE_LIMIT, "", JSVal.num 429, true, none⟩
        : HeliusError).statusCode = JSVal.num 429 ∨
    (⟨HeliusErrorCode.API_RATE_LIMIT, "", JSVal.num 429, true, none⟩
        : HeliusError).statusCode = JSVal.num 500 ∨
    (⟨HeliusErrorCode.API_RATE_LIMIT, "", JSVal.num 429, true, none⟩
        : HeliusError).statusCode = JSVal.num 502 ∨
    (⟨HeliusErrorCode.API_RATE_LIMIT, "", JSVal.num 429, true, none⟩
        : HeliusError).statusCode = JSVal.num 503 :=
  retryable_whitelist.1
    (JSVal.obj [("response", JSVal.obj [("status", JSVal.num 429)])]) none
    ⟨HeliusErrorCode.API_RATE_LIMIT, "", JSVal.num 429, true, none⟩ rfl rfl

/-- C6: `getUserMessage` returns the curated fixed string for the four
curated kinds and the raw stored message verbatim for every other kind. -/
theorem getUserMessage_spec (e : HeliusError) :
    (e.code = HeliusErrorCode.API_KEY_INVALID → e.getUserMessage =
      "Invalid API key. Please check your API key in the Helius dashboard.")
    ∧ (e.code = HeliusErrorCode.API_RATE_LIMIT → e.getUserMessage =
      "Rate limit exceeded. Please wait before making more requests.")
    ∧ (e.code = HeliusErrorCode.WEBHOOK_ADDRESS_LIMIT → e.getUserMessage =
      "Webhook address limit exceeded. Maximum 100,000 addresses per webhook.")
    ∧ (e.code = HeliusErrorCode.INSUFFICIENT_FUNDS → e.getUserMessage =
      "Insufficient funds for this transaction.")
    ∧ (e.code ≠ HeliusErrorCode.API_KEY_INVALID →
       e.code ≠ HeliusErrorCode.API_RATE_LIMIT →
       e.code ≠ HeliusErrorCode.WEBHOOK_ADDRESS_LIMIT →
       e.code ≠ HeliusErrorCode.INSUFFICIENT_FUNDS →
       e.getUserMessage = e.message) := by
  obtain ⟨c, m, sc, r, o⟩ := e
  cases c <;> simp [HeliusError.getUserMessage]

theorem getUserMessage_spec_witness :
    (⟨HeliusErrorCode.TRANSACTION_FAILED, "raw diagnostic", JSVal.undef, false, none⟩
        : HeliusError).getUserMessage = "raw diagnostic" :=
  (getUserMessage_spec ⟨HeliusErrorCode.TRANSACTION_FAILED, "raw diagnostic",
      JSVal.undef, false, none⟩).2.2.2.2 nofun nofun nofun nofun

/-- C7: `isRetryableError` agrees with `isRetryable` on class instances and
is false on every non-instance, whatever its shape. -/
theorem isRetryableError_spec :
    (∀ e : HeliusError, isRetryableError (Caught.helius e) = e.isRetryable)
    ∧ (∀ x : Caught, isHeliusError x = false → isRetryableError x = false) := by
  constructor
  · intro e; rfl
  · intro x hx
    cases x
    · rfl
    · simp [isHeliusError] at hx

theorem isRetryableError_spec_witness :
    isRetryableError (Caught.raw (JSVal.str "boom")) = false :=
  isRetryableError_spec.2 (Caught.raw (JSVal.str "boom")) rfl

/-- C8 counterexample: the input has a `message` field (the empty string),
yet the classified message is not that field but the string conversion of
the whole input, because the field is falsy. -/
theorem empty_message_field_counterexample :
    createHeliusError (JSVal.obj [("message", JSVal.str "")]) none
      = Except.ok ⟨HeliusErrorCode.UNKNOWN_ERROR, "[object Object]",
          JSVal.undef, false, none⟩
    ∧ ("[object Object]" : String) ≠ "" :=
  ⟨rfl, by decide⟩

/-- C8 (amended): with no truthy response descriptor, when no business
substring matches the result is kind UNKNOWN_ERROR with message equal to
the derived string (the message field when truthy, else the string
conversion of the input), and every result of the non-transport branches
has an absent status code and `retryable = false`. -/
theorem createHeliusError_fallback (v : JSVal) (op : Option String)
    (h1 : v ≠ JSVal.null) (h2 : v ≠ JSVal.undef)
    (hresp : truthy (responseOf v) = false) :
    (∀ s : String, derivedMessage v = JSVal.str s →
      strIncludes s "100,000 addresses" = false → strIncludes s "address limit" = false →
      strIncludes s "insufficient funds" = false → strIncludes s "simulation failed" = false →
      createHeliusError v op = Except.ok
        ⟨HeliusErrorCode.UNKNOWN_ERROR, s, JSVal.undef, false, op⟩)
    ∧ (∀ e : HeliusError, createHeliusError v op = Except.ok e →
        e.statusCode = JSVal.undef ∧ e.retryable = false) := by
  constructor
  · intro s hm ha hb hc hd
    rw [createHeliusError_business v op s h1 h2 hresp hm]
    simp [ha, hb, hc, hd, HeliusError.construct, errMessageString, jsToString]
  · intro e h
    exact ⟨(business_result_shape v op e hresp h).1,
      (business_result_shape v op e hresp h).2.1⟩

theorem createHeliusError_fallback_witness :
    createHeliusError (JSVal.obj [("message", JSVal.str "boom")]) none
      = Except.ok ⟨HeliusErrorCode.UNKNOWN_ERROR, "boom", JSVal.undef, false, none⟩ :=
  (createHeliusError_fallback (JSVal.obj [("message", JSVal.str "boom")]) none
    nofun nofun rfl).1 "boom" rfl (by decide) (by decide) (by decide) (by decide)

/-- C9: direct construction with explicit statusCode, retryable and
operation preserves all three, and `isRetryable` returns exactly the given
flag. -/
theorem construct_roundtrip (code : HeliusErrorCode) (message : JSVal)
    (n : Int) (r : Bool) (op : String) :
    (HeliusError.construct code message ⟨JSVal.num n, some r, some op⟩).statusCode
        = JSVal.num n
    ∧ (HeliusError.construct code message ⟨JSVal.num n, some r, some op⟩).retryable = r
    ∧ (HeliusError.construct code message ⟨JSVal.num n, some r, some op⟩).isRetryable = r
    ∧ (HeliusError.construct code message ⟨JSVal.num n, some r, some op⟩).operation
        = some op :=
  ⟨rfl, rfl, rfl, rfl⟩

/-- C10 counterexample: a response whose status is the string "500" carries
no numeric status, yet the result kind is API_REQUEST_FAILED (the bracket
lookup stringifies its key), not NETWORK_ERROR, and the status code is
present. -/
theorem string_status_counterexample :
    createHeliusError (JSVal.obj [("response", JSVal.obj [("status", JSVal.str "500")])]) none
      = Except.ok ⟨HeliusErrorCode.API_REQUEST_FAILED, "", JSVal.str "500", false, none⟩
    ∧ (JSVal.str "500").isNum = false
    ∧ HeliusErrorCode.API_REQUEST_FAILED ≠ HeliusErrorCode.NETWORK_ERROR :=
  ⟨rfl, rfl, by decide⟩

/-- C10 (amended): with a truthy response descriptor whose status is not a
number and whose property-key lookup misses the table, the transport branch
still returns immediately: kind NETWORK_ERROR, `retryable = false`, and the
status value itself (undefined when absent) stored as statusCode; the
message text is never consulted for the kind. -/
theorem createHeliusError_nonnumeric_status (v : JSVal) (op : Option String)
    (hresp : truthy (responseOf v) = true)
    (hnum : (statusOf v).isNum = false)
    (hmap : statusMapLookup (statusOf v) = none) :
    createHeliusError v op = Except.ok
      ⟨HeliusErrorCode.NETWORK_ERROR, errMessageString (transportMessage v),
        statusOf v, false, op⟩ := by
  have hr : retryableStatus (statusOf v) = false := by
    cases h : statusOf v <;> simp_all [retryableStatus, JSVal.isNum]
  rw [createHeliusError_transport v op hresp]
  simp [HeliusError.construct, hmap, hr]

theorem createHeliusError_nonnumeric_status_witness :
    createHeliusError (JSVal.obj [("response", JSVal.obj []),
        ("message", JSVal.str "insufficient funds")]) none
      = Except.ok ⟨HeliusErrorCode.NETWORK_ERROR, "insufficient funds",
          JSVal.undef, false, none⟩ :=
  (createHeliusError_nonnumeric_status (JSVal.obj [("response", JSVal.obj []),
      ("message", JSVal.str "insufficient funds")]) none rfl rfl rfl).trans rfl
